import Mathlib

/-!
Shallow embedding of the user-authentication / profile-persistence core of
the Nimbus Nexus EC2 onboarding portal (src/app.py), together with the
best-effort enrichment probes, and proofs of the specification claims.

Modelling conventions:
* the SQLite `users` table is a list of `User` records, in insertion order;
  `AUTOINCREMENT` row ids are modelled as `length + 1` at insertion time;
* SQLite `LOWER` lowercases ASCII letters only, which is exactly
  `Char.toLower`; the model maps it over the code points of a string;
* werkzeug password hashing is salted (non-deterministic), so the pair
  `generate_password_hash` / `check_password_hash` is an abstract parameter;
* timestamps (`datetime.utcnow().isoformat()`) are passed in as a `now`
  string parameter;
* fallible effects (HTTP fetches, file reads) are environments passed as
  parameters; a Python exception escaping a function is an `Except.error`.
-/

namespace Nimbus

/-- ASCII lowercasing of a whole string, code point by code point: the model
of the SQL expression `LOWER(x)` used in `load_user` (src/app.py:160). -/
def sqlLower (s : String) : String := ⟨s.data.map Char.toLower⟩

/-- ASCII uppercasing of a whole string: the model of `upper(U)` from the
testable property in the specification (section 8). -/
def pyUpper (s : String) : String := ⟨s.data.map Char.toUpper⟩

/-- `Char.ofNat` at a valid code point evaluates back to that code point. -/
theorem char_toNat_ofNat (n : Nat) (h : n.isValidChar) : (Char.ofNat n).toNat = n := by
  unfold Char.ofNat
  rw [dif_pos h]
  simp [Char.ofNatAux, Char.toNat, UInt32.toNat]

/-- Lowercasing after uppercasing agrees with plain lowercasing (ASCII). -/
theorem toLower_toUpper (c : Char) : c.toUpper.toLower = c.toLower := by
  have hupper : c.toUpper = if c.toNat ≥ 97 ∧ c.toNat ≤ 122 then Char.ofNat (c.toNat - 32) else c := rfl
  have hlow : ∀ d : Char, d.toLower = if d.toNat ≥ 65 ∧ d.toNat ≤ 90 then Char.ofNat (d.toNat + 32) else d := fun _ => rfl
  by_cases h : c.toNat ≥ 97 ∧ c.toNat ≤ 122
  · rw [hupper, if_pos h, hlow, hlow c]
    have ht : (Char.ofNat (c.toNat - 32)).toNat = c.toNat - 32 :=
      char_toNat_ofNat _ (Or.inl (by omega))
    rw [ht]
    rw [if_pos (by omega : c.toNat - 32 ≥ 65 ∧ c.toNat - 32 ≤ 90)]
    rw [if_neg (by omega : ¬(c.toNat ≥ 65 ∧ c.toNat ≤ 90))]
    have harith : c.toNat - 32 + 32 = c.toNat := by omega
    rw [harith, Char.ofNat_toNat]
  · rw [hupper, if_neg h]

/-- `sqlLower` collapses the case difference introduced by `pyUpper`. -/
theorem sqlLower_pyUpper (s : String) : sqlLower (pyUpper s) = sqlLower s := by
  unfold sqlLower pyUpper
  have : (s.data.map Char.toUpper).map Char.toLower = s.data.map Char.toLower := by
    rw [List.map_map]
    exact List.map_congr_left fun c _ => toLower_toUpper c
  rw [this]

/-- A string whose ASCII lowercasing is empty is itself empty. -/
theorem sqlLower_eq_empty_iff (s : String) : sqlLower s = "" ↔ s = "" := by
  constructor
  · intro h
    have hdata : s.data.map Char.toLower = [] := congrArg String.data h
    have : s.data = [] := List.map_eq_nil_iff.mp hdata
    cases s
    simp_all
  · intro h; rw [h]; rfl

/-- Python `str.strip()`: drop leading and trailing whitespace. Defined over
the code-point list so that it evaluates by kernel reduction. -/
def pyStrip (s : String) : String :=
  ⟨((s.data.dropWhile Char.isWhitespace).reverse.dropWhile Char.isWhitespace).reverse⟩

/-- One row of the `users` table (schema in `init_db`, src/app.py:89-103).
Profile columns and `last_login` are nullable. -/
structure User where
  id : Nat
  username : String
  password : String
  first_name : Option String := none
  last_name : Option String := none
  email : Option String := none
  job_title : Option String := none
  favorite_service : Option String := none
  region : Option String := none
  bio : Option String := none
  last_login : Option String := none
deriving Repr, DecidableEq

/-- `load_user` (src/app.py:157-161):
`SELECT * FROM users WHERE LOWER(username) = LOWER(?)`, first matching row. -/
def load_user (store : List User) (username : String) : Option User :=
  store.find? (fun u => sqlLower u.username == sqlLower username)

/-- Abstract model of the salted werkzeug hashing pair
`generate_password_hash` / `check_password_hash` (src/app.py:23). -/
structure HashAlg where
  generate_password_hash : String → String
  check_password_hash : String → String → Bool

/-- The three outcomes of the auth flow (specification section 4.2). -/
inductive LoginOutcome
  | registered (username : String)
  | authenticated (username : String)
  | rejected
deriving Repr, DecidableEq

/-- Observable response of one POST to `login`, plus the resulting store. -/
structure LoginResponse where
  outcome : LoginOutcome
  message : String
  store : List User
deriving Repr, DecidableEq

/-- The `login` POST handler (src/app.py:165-197): trim the username, look it
up case-insensitively; unknown username registers (INSERT with hashed
password and `last_login = now`), matching password authenticates (UPDATE of
`last_login` by row id), mismatching password is rejected with no write. -/
def login (alg : HashAlg) (store : List User) (rawUsername password now : String) :
    LoginResponse :=
  let username := pyStrip rawUsername
  match load_user store username with
  | none =>
      let hashed := alg.generate_password_hash password
      { outcome := .registered username
        message := "Welcome aboard! Let\x27s tailor your cloud profile."
        store := store ++ [{ id := store.length + 1, username := username,
                             password := hashed, last_login := some now }] }
  | some user =>
      if alg.check_password_hash user.password password then
        { outcome := .authenticated user.username
          message := "Logged in successfully."
          store := store.map (fun v =>
            if v.id = user.id then { v with last_login := some now } else v) }
      else
        { outcome := .rejected
          message := "Incorrect password. Try again."
          store := store }

/-- The seven optional fields of the profile form; `none` models a field
absent from the submitted form (`request.form.get` default). -/
structure ProfileForm where
  first_name : Option String := none
  last_name : Option String := none
  email : Option String := none
  job_title : Option String := none
  favorite_service : Option String := none
  region : Option String := none
  bio : Option String := none
deriving Repr, DecidableEq

/-- Python `request.form.get(field, "").strip()` (src/app.py:207-213). -/
def formGet (v : Option String) : String := pyStrip (v.getD "")

/-- Outcome of one POST to `complete_profile`. -/
inductive ProfileOutcome
  | notFound
  | saved (username : String)
deriving Repr, DecidableEq

/-- The `complete_profile` POST handler (src/app.py:199-235): look the user
up case-insensitively, 404 when absent, otherwise overwrite all seven
profile columns of the row(s) whose stored `username` matches exactly
(`UPDATE ... WHERE username = ?` with the stored spelling). -/
def complete_profile (store : List User) (username : String) (form : ProfileForm) :
    ProfileOutcome × List User :=
  match load_user store username with
  | none => (.notFound, store)
  | some user =>
      (.saved user.username,
       store.map (fun v =>
         if v.username = user.username then
           { v with first_name := some (formGet form.first_name),
                    last_name := some (formGet form.last_name),
                    email := some (formGet form.email),
                    job_title := some (formGet form.job_title),
                    favorite_service := some (formGet form.favorite_service),
                    region := some (formGet form.region),
                    bio := some (formGet form.bio) }
         else v))

/-- The store-level failure of the guarded creation path. -/
inductive StoreError
  | duplicateUser
deriving Repr, DecidableEq

/-- The record-creation operation of the code: the `INSERT` of the
registration branch of `login` (src/app.py:173-184) together with its guard,
the case-insensitive `load_user` check (`user is None`). When a
case-insensitive match already exists the flow never reaches the `INSERT`;
that guard is the failure the specification names `DuplicateUser`. The
error case carries no store, so a failed creation inserts nothing. -/
def create (store : List User) (name hashed now : String) :
    Except StoreError (List User) :=
  match load_user store name with
  | some _ => .error .duplicateUser
  | none => .ok (store ++ [{ id := store.length + 1, username := name,
                             password := hashed, last_login := some now }])

/-! ### Schema initialisation (`init_db` / `ensure_columns`) -/

/-- A SQLite table: column names in order, plus rows. A row is an
association list from column name to value; a column absent from a row reads
as NULL, which is how `ALTER TABLE ... ADD COLUMN` (NULL default) leaves
pre-existing rows untouched. -/
structure Table where
  cols : List String
  rows : List (List (String × String))
deriving Repr, DecidableEq

/-- Columns of the `CREATE TABLE IF NOT EXISTS users` statement
(src/app.py:89-103). -/
def createTableCols : List String :=
  ["id", "username", "password", "first_name", "last_name", "email",
   "job_title", "favorite_service", "region", "bio", "last_login"]

/-- The `alterations` mapping of `ensure_columns` (src/app.py:112-118):
the later-added optional columns, in iteration order. -/
def alterations : List String :=
  ["job_title", "favorite_service", "region", "bio", "last_login"]

/-- `ensure_columns` (src/app.py:108-121): snapshot the existing column set
(`PRAGMA table_info`), then run `ALTER TABLE users ADD COLUMN c TEXT` for
each alteration column missing from that snapshot. Added columns default to
NULL, so rows are not rewritten. -/
def ensure_columns (t : Table) : Table :=
  alterations.foldl
    (fun acc c => if c ∈ t.cols then acc else { acc with cols := acc.cols ++ [c] }) t

/-- `init_db` (src/app.py:85-105): `CREATE TABLE IF NOT EXISTS` (create the
full schema only when the table is absent), then `ensure_columns`. -/
def init_db : Option Table → Table
  | none => ensure_columns { cols := createTableCols, rows := [] }
  | some t => ensure_columns t

/-! ### Enrichment probes -/

/-- Environment of the file-statistic probe: `Limerick.txt` may be absent,
readable with some content, or present but failing to read (permission
error or bytes that are not valid UTF-8). -/
inductive FileEnv
  | absent
  | readable (content : String)
  | unreadable
deriving Repr, DecidableEq

/-- Values appearing in the probe result dictionaries. -/
inductive PyValue
  | str (s : String)
  | nat (n : Nat)
deriving Repr, DecidableEq

/-- A Python exception escaping a probe. -/
inductive PyError
  | readError
deriving Repr, DecidableEq

/-- Python `content.split()`: the number of maximal whitespace-delimited
tokens. -/
def pyWordCount (content : String) : Nat :=
  (content.data.foldl
    (fun (st : Nat × Bool) c =>
      if c.isWhitespace then (st.1, false)
      else if st.2 then st else (st.1 + 1, true))
    (0, false)).1

/-- `get_limerick_stats` (src/app.py:145-154). Only absence of the file is
guarded (`.exists()`); `read_text(encoding="utf-8")` is fallible and is not
wrapped in any try/except, so a read failure propagates to the caller —
modelled as `Except.error`. -/
def get_limerick_stats (env : FileEnv) (resolvedPath : String) :
    Except PyError (List (String × PyValue)) :=
  match env with
  | .absent => .ok [("error", .str "Limerick.txt not found.")]
  | .readable content =>
      .ok [("word_count", .nat (pyWordCount content)),
           ("path", .str resolvedPath)]
  | .unreadable => .error .readError

/-- Result of one metadata fetch: `requests.Session.get` + `raise_for_status`
either yields a body or raises some `requests.RequestException` (timeout,
connection error, non-success status). -/
inductive FetchOutcome
  | success (body : String)
  | failure
deriving Repr, DecidableEq

/-- One issued metadata request, recording its path and timeout. The code
passes `timeout=0.2` seconds (src/app.py:135), modelled as 200 ms. -/
structure MetadataRequest where
  path : String
  timeout_ms : Nat
deriving Repr, DecidableEq

/-- `METADATA_FIELDS` (src/app.py:31-36), in dict insertion order. -/
def METADATA_FIELDS : List (String × String) :=
  [("Instance ID", "instance-id"),
   ("Instance Type", "instance-type"),
   ("Availability Zone", "placement/availability-zone"),
   ("Public IPv4", "public-ipv4")]

/-- The advisory stored under the `error` key (src/app.py:139-141). -/
def METADATA_ADVISORY : String :=
  "Instance metadata is unavailable. If you are running locally, this is expected."

/-- One iteration of the loop in `fetch_instance_metadata`
(src/app.py:131-141): once an `error` entry is present the loop body is
never reached again (`break` at the top of the loop), otherwise the field is
fetched with a 200 ms timeout and either its trimmed body is recorded under
the field label or the advisory is recorded under `error`. The second
component traces the requests actually issued. -/
def metadataStep (net : String → FetchOutcome)
    (acc : List (String × String) × List MetadataRequest) (field : String × String) :
    List (String × String) × List MetadataRequest :=
  if (acc.1.lookup "error").isSome then acc
  else
    match net field.2 with
    | .success body =>
        (acc.1 ++ [(field.1, pyStrip body)], acc.2 ++ [{ path := field.2, timeout_ms := 200 }])
    | .failure =>
        (acc.1 ++ [("error", METADATA_ADVISORY)], acc.2 ++ [{ path := field.2, timeout_ms := 200 }])

/-- `fetch_instance_metadata` (src/app.py:124-142): skip entirely when the
deployment setting disables the probe, otherwise loop over
`METADATA_FIELDS` with the break-on-error logic of `metadataStep`.
Returns the metadata dictionary (insertion order) and the request trace. -/
def fetch_instance_metadata (enabled : Bool) (net : String → FetchOutcome) :
    List (String × String) × List MetadataRequest :=
  if enabled then METADATA_FIELDS.foldl (metadataStep net) ([], []) else ([], [])

/-! ### Reachable stores (operation sequences) -/

/-- One inbound mutating request: a login POST or a profile POST. -/
inductive Op
  | loginPost (rawUsername password now : String)
  | profilePost (username : String) (form : ProfileForm)

/-- The store after handling one request. -/
def applyOp (alg : HashAlg) (s : List User) : Op → List User
  | .loginPost raw p t => (login alg s raw p t).store
  | .profilePost u f => (complete_profile s u f).2

/-- Case-insensitive username uniqueness: the invariant of the data model
(specification section 3). -/
def CaseInsensitiveUnique (s : List User) : Prop :=
  (s.map (fun u => sqlLower u.username)).Nodup

/-! ### Concrete fixtures used by the witness theorems -/

/-- A concrete (unsalted) stand-in for the abstract hashing pair, used only
to instantiate theorems at concrete inputs. -/
def algW : HashAlg :=
  { generate_password_hash := fun p => "h:" ++ p
    check_password_hash := fun stored p => stored == "h:" ++ p }

/-- A concrete stored user. -/
def aliceUser : User :=
  { id := 1, username := "alice", password := "h:secret",
    last_login := some "2024-01-01T00:00:00" }

/-- A second concrete stored user, in a different store. -/
def carolUser : User :=
  { id := 1, username := "carol", password := "h:pw2" }

/-- A one-user store. -/
def storeW : List User := [aliceUser]

/-- Another one-user store. -/
def store2W : List User := [carolUser]

/-! ### Auth flow: wrong password -/

/-- A wrong password against an existing user yields the fixed rejection
response and leaves the store untouched (src/app.py:186-196: the mismatch
branch only flashes and re-renders). -/
theorem login_rejected_of_wrong_password (alg : HashAlg) (s : List User)
    (raw p t : String) (user : User)
    (hfind : load_user s (pyStrip raw) = some user)
    (hpw : alg.check_password_hash user.password p = false) :
    login alg s raw p t =
      { outcome := .rejected, message := "Incorrect password. Try again.",
        store := s } := by
  simp only [login, hfind, hpw]
  simp

/-- Claim C1, counterexample: the claim also asserts that for the pair of
inputs (unknown username, any password) and (known username, wrong
password) the observable response never reveals whether the username
exists. In the code an unknown username is registered, not rejected, so the
two observable outcomes differ: username existence is revealed. -/
theorem c1_counterexample :
    (login algW storeW "alice" "wrongpw" "t0").outcome = .rejected ∧
    (login algW storeW "bob" "wrongpw" "t0").outcome = .registered "bob" ∧
    (login algW storeW "bob" "wrongpw" "t0").outcome ≠
      (login algW storeW "alice" "wrongpw" "t0").outcome :=
  ⟨by decide, by decide, by decide⟩

/-- Claim C1, amended: every login with an existing username and a
non-matching password produces the rejected outcome with the one fixed
generic message, and any two such rejection responses are identical — the
rejection response itself depends on nothing (not the user, the store, the
password, or the hashing algorithm), so within rejections nothing is
revealed about which credential was wrong. -/
theorem c1_rejection_response_uniform
    (alg₁ : HashAlg) (s₁ : List User) (raw₁ p₁ t₁ : String) (u₁ : User)
    (alg₂ : HashAlg) (s₂ : List User) (raw₂ p₂ t₂ : String) (u₂ : User)
    (hfind₁ : load_user s₁ (pyStrip raw₁) = some u₁)
    (hpw₁ : alg₁.check_password_hash u₁.password p₁ = false)
    (hfind₂ : load_user s₂ (pyStrip raw₂) = some u₂)
    (hpw₂ : alg₂.check_password_hash u₂.password p₂ = false) :
    (login alg₁ s₁ raw₁ p₁ t₁).outcome = .rejected ∧
    (login alg₁ s₁ raw₁ p₁ t₁).message = "Incorrect password. Try again." ∧
    (login alg₁ s₁ raw₁ p₁ t₁).outcome = (login alg₂ s₂ raw₂ p₂ t₂).outcome ∧
    (login alg₁ s₁ raw₁ p₁ t₁).message = (login alg₂ s₂ raw₂ p₂ t₂).message := by
  rw [login_rejected_of_wrong_password alg₁ s₁ raw₁ p₁ t₁ u₁ hfind₁ hpw₁,
      login_rejected_of_wrong_password alg₂ s₂ raw₂ p₂ t₂ u₂ hfind₂ hpw₂]
  exact ⟨rfl, rfl, rfl, rfl⟩

/-- Claim C1 witness: two concrete rejecting inputs over different stores
and different users produce literally the same rejection response. -/
theorem c1_rejection_response_uniform_witness :
    (login algW storeW "alice" "wrongpw" "t0").outcome = .rejected ∧
    (login algW storeW "alice" "wrongpw" "t0").message = "Incorrect password. Try again." ∧
    (login algW storeW "alice" "wrongpw" "t0").outcome =
      (login algW store2W " carol " "nope" "t9").outcome ∧
    (login algW storeW "alice" "wrongpw" "t0").message =
      (login algW store2W " carol " "nope" "t9").message :=
  c1_rejection_response_uniform algW storeW "alice" "wrongpw" "t0" aliceUser
    algW store2W " carol " "nope" "t9" carolUser
    (by decide) (by decide) (by decide) (by decide)

/-- Claim C2: a login whose username matches an existing record but whose
password fails hash verification leaves the stored state entirely
unchanged — the resulting store is the prior store, so every field of every
row (including `last_login`, the hash and the profile columns) keeps its
value and no row is inserted, updated or deleted. -/
theorem c2_wrong_password_frame (alg : HashAlg) (s : List User)
    (raw p t : String) (user : User)
    (hfind : load_user s (pyStrip raw) = some user)
    (hpw : alg.check_password_hash user.password p = false) :
    (login alg s raw p t).store = s := by
  rw [login_rejected_of_wrong_password alg s raw p t user hfind hpw]

/-- Claim C2 witness at a concrete store and wrong password. -/
theorem c2_wrong_password_frame_witness :
    (login algW storeW "alice" "wrongpw" "t0").store = storeW :=
  c2_wrong_password_frame algW storeW "alice" "wrongpw" "t0" aliceUser
    (by decide) (by decide)

/-- Claim C4: the creation operation fails with `DuplicateUser` exactly when
some stored record matches the new name case-insensitively (a match that
differs only in letter case included), and otherwise succeeds, appending
exactly the new record; the failure carries no store, so nothing is
inserted then. -/
theorem c4_create_duplicate_guard (s : List User) (name hashed now : String) :
    (create s name hashed now = .error .duplicateUser ↔
       ∃ u ∈ s, sqlLower u.username = sqlLower name) ∧
    ((¬ ∃ u ∈ s, sqlLower u.username = sqlLower name) →
       create s name hashed now =
         .ok (s ++ [{ id := s.length + 1, username := name, password := hashed,
                      last_login := some now }])) := by
  cases hlu : load_user s name with
  | some u =>
      have hmem : u ∈ s := List.mem_of_find?_eq_some hlu
      have hp : sqlLower u.username = sqlLower name := by
        have := List.find?_some hlu
        simpa using this
      have hcreate : create s name hashed now = .error .duplicateUser := by
        simp [create, hlu]
      refine ⟨⟨fun _ => ⟨u, hmem, hp⟩, fun _ => hcreate⟩, fun hnot => absurd ⟨u, hmem, hp⟩ hnot⟩
  | none =>
      have hall : ∀ u ∈ s, sqlLower u.username ≠ sqlLower name := by
        intro u hu
        have := List.find?_eq_none.mp hlu u hu
        simpa using this
      have hcreate : create s name hashed now =
          .ok (s ++ [{ id := s.length + 1, username := name, password := hashed,
                       last_login := some now }]) := by
        simp [create, hlu]
      constructor
      · constructor
        · intro hc
          rw [hcreate] at hc
          exact absurd hc (by simp)
        · intro hex
          rcases hex with ⟨u, hu, he⟩
          exact absurd he (hall u hu)
      · intro _
        exact hcreate

/-- Claim C4 witness: creating `ALICE` against a store holding `alice`
fails with `DuplicateUser`; the instantiated guard property. -/
theorem c4_create_duplicate_guard_witness :
    (create storeW "ALICE" "h2" "t1" = .error .duplicateUser ↔
       ∃ u ∈ storeW, sqlLower u.username = sqlLower "ALICE") ∧
    ((¬ ∃ u ∈ storeW, sqlLower u.username = sqlLower "ALICE") →
       create storeW "ALICE" "h2" "t1" =
         .ok (storeW ++ [{ id := storeW.length + 1, username := "ALICE", password := "h2",
                           last_login := some "t1" }])) :=
  c4_create_duplicate_guard storeW "ALICE" "h2" "t1"

/-- Claim C9: lookup is case-insensitive — a username and its uppercased
form resolve to the same result (same record, or `none` for both). -/
theorem c9_lookup_case_insensitive (s : List User) (U : String) :
    load_user s (pyUpper U) = load_user s U := by
  unfold load_user
  rw [sqlLower_pyUpper]

/-- Stripping a string all of whose characters are whitespace (the empty
string included) yields the empty string. -/
theorem pyStrip_eq_empty_of_whitespace (raw : String)
    (h : ∀ c ∈ raw.data, c.isWhitespace) : pyStrip raw = "" := by
  unfold pyStrip
  have h1 : raw.data.dropWhile Char.isWhitespace = [] :=
    List.dropWhile_eq_nil_iff.mpr h
  rw [h1]
  rfl

/-- Claim C10: every login submission whose username is empty or consists
only of whitespace is not rejected; with no empty-username record present
it is treated as a registration and a record with the empty string as
username is inserted. -/
theorem c10_blank_username_registers (alg : HashAlg) (s : List User) (raw p t : String)
    (hblank : ∀ c ∈ raw.data, c.isWhitespace)
    (h : ∀ u ∈ s, u.username ≠ "") :
    login alg s raw p t =
      { outcome := .registered ""
        message := "Welcome aboard! Let\x27s tailor your cloud profile."
        store := s ++ [{ id := s.length + 1, username := "",
                         password := alg.generate_password_hash p,
                         last_login := some t }] } := by
  have hstrip : pyStrip raw = "" := pyStrip_eq_empty_of_whitespace raw hblank
  have hnone : load_user s "" = none := by
    unfold load_user
    apply List.find?_eq_none.mpr
    intro u hu
    simp only [beq_iff_eq]
    intro heq
    exact h u hu ((sqlLower_eq_empty_iff u.username).mp (by simpa using heq))
  simp only [login, hstrip, hnone]

/-- Claim C10 witness: both an empty and a whitespace-only username against
the one-user store register the empty username. -/
theorem c10_blank_username_registers_witness :
    (login algW storeW "" "pw" "t0" =
      { outcome := .registered ""
        message := "Welcome aboard! Let\x27s tailor your cloud profile."
        store := storeW ++ [{ id := storeW.length + 1, username := "",
                              password := algW.generate_password_hash "pw",
                              last_login := some "t0" }] }) ∧
    (login algW storeW "   " "pw" "t0" =
      { outcome := .registered ""
        message := "Welcome aboard! Let\x27s tailor your cloud profile."
        store := storeW ++ [{ id := storeW.length + 1, username := "",
                              password := algW.generate_password_hash "pw",
                              last_login := some "t0" }] }) :=
  ⟨c10_blank_username_registers algW storeW "" "pw" "t0" (by decide) (by decide),
   c10_blank_username_registers algW storeW "   " "pw" "t0" (by decide) (by decide)⟩

/-- The creation operation is exactly the registration branch of the login
handler: under the same guard, `login` appends the record `create` returns. -/
theorem create_matches_login_registration (alg : HashAlg) (s : List User)
    (raw p t : String) (h : load_user s (pyStrip raw) = none) :
    create s (pyStrip raw) (alg.generate_password_hash p) t =
      .ok (login alg s raw p t).store := by
  simp [create, h, login]

/-! ### Claim C3: reachable stores keep usernames unique up to case -/

/-- Mapping a row-update that never touches `username` over the store leaves
the list of lowercased usernames unchanged. -/
theorem usernames_map_update (s : List User) (f : User → User)
    (hf : ∀ v, (f v).username = v.username) :
    (s.map f).map (fun u => sqlLower u.username) = s.map (fun u => sqlLower u.username) := by
  rw [List.map_map]
  exact List.map_congr_left fun a _ => by simp [Function.comp, hf]

/-- Every operation preserves case-insensitive username uniqueness: the only
insertion (registration) is guarded by the case-insensitive lookup failing,
and the two updates (`last_login`, profile overwrite) never touch
`username`. -/
theorem applyOp_preserves_unique (alg : HashAlg) (s : List User) (op : Op)
    (h : CaseInsensitiveUnique s) : CaseInsensitiveUnique (applyOp alg s op) := by
  cases op with
  | loginPost raw p t =>
      show CaseInsensitiveUnique (login alg s raw p t).store
      cases hlu : load_user s (pyStrip raw) with
      | none =>
          have hnotin : ∀ u ∈ s, sqlLower u.username ≠ sqlLower (pyStrip raw) := by
            intro u hu
            have := List.find?_eq_none.mp hlu u hu
            simpa using this
          have hstore : (login alg s raw p t).store =
              s ++ [{ id := s.length + 1, username := pyStrip raw,
                      password := alg.generate_password_hash p, last_login := some t }] := by
            simp [login, hlu]
          rw [hstore]
          unfold CaseInsensitiveUnique at h ⊢
          rw [List.map_append, List.nodup_append]
          refine ⟨h, List.nodup_singleton _, ?_⟩
          intro a ha hb
          rcases List.mem_map.mp ha with ⟨u, hu, rfl⟩
          simp only [List.map_cons, List.map_nil, List.mem_singleton] at hb
          exact hnotin u hu hb
      | some user =>
          by_cases hc : alg.check_password_hash user.password p
          · have hstore : (login alg s raw p t).store =
                s.map (fun v => if v.id = user.id then { v with last_login := some t } else v) := by
              simp [login, hlu, hc]
            rw [hstore]
            unfold CaseInsensitiveUnique at h ⊢
            rw [usernames_map_update]
            · exact h
            · intro v; by_cases hv : v.id = user.id <;> simp [hv]
          · have hstore : (login alg s raw p t).store = s := by
              simp [login, hlu, hc]
            rw [hstore]; exact h
  | profilePost u f =>
      show CaseInsensitiveUnique (complete_profile s u f).2
      cases hlu : load_user s u with
      | none =>
          have : (complete_profile s u f).2 = s := by simp [complete_profile, hlu]
          rw [this]; exact h
      | some user =>
          unfold CaseInsensitiveUnique at h ⊢
          simp only [complete_profile, hlu]
          rw [usernames_map_update]
          · exact h
          · intro v; by_cases hv : v.username = user.username <;> simp [hv]

/-- Claim C3: in every store reachable from the empty store by any sequence
of operations (registration-on-first-login, successful login, profile
completion), `lower(username)` is unique across all records. -/
theorem c3_reachable_usernames_unique (alg : HashAlg) (ops : List Op) :
    CaseInsensitiveUnique (ops.foldl (applyOp alg) []) := by
  have gen : ∀ (l : List Op) (s : List User), CaseInsensitiveUnique s →
      CaseInsensitiveUnique (l.foldl (applyOp alg) s) := by
    intro l
    induction l with
    | nil => exact fun s hs => hs
    | cons op rest ih =>
        intro s hs
        exact ih _ (applyOp_preserves_unique alg s op hs)
  exact gen ops [] (by simp [CaseInsensitiveUnique])

/-! ### Claim C5: schema initialisation is additive and idempotent -/

/-- Computes the fold of `ensure_columns` in closed form: the snapshot-guarded
column additions append exactly the columns missing from the snapshot and
leave the rows alone. -/
theorem ensure_fold_cols (snapshot : List String) (cs : List String) (t : Table) :
    (cs.foldl (fun acc c => if c ∈ snapshot then acc
                            else { acc with cols := acc.cols ++ [c] }) t) =
      { cols := t.cols ++ cs.filter (fun c => decide (c ∉ snapshot)), rows := t.rows } := by
  induction cs generalizing t with
  | nil => simp
  | cons c rest ih =>
      by_cases hc : c ∈ snapshot
      · simp only [List.foldl_cons, if_pos hc]
        rw [ih]
        simp [List.filter_cons, hc]
      · simp only [List.foldl_cons, if_neg hc]
        rw [ih]
        simp [List.filter_cons, hc, List.append_assoc]

/-- `ensure_columns` in closed form. -/
theorem ensure_columns_eq (t : Table) :
    ensure_columns t =
      { cols := t.cols ++ alterations.filter (fun c => decide (c ∉ t.cols)),
        rows := t.rows } :=
  ensure_fold_cols t.cols alterations t

/-- After `ensure_columns`, every later-added column is present. -/
theorem mem_ensure_columns (t : Table) (c : String) (hc : c ∈ alterations) :
    c ∈ (ensure_columns t).cols := by
  rw [ensure_columns_eq]
  by_cases h : c ∈ t.cols
  · exact List.mem_append_left _ h
  · exact List.mem_append_right _ (List.mem_filter.mpr ⟨hc, by simpa using h⟩)

/-- A second `ensure_columns` run changes nothing. -/
theorem ensure_columns_idem (t : Table) :
    ensure_columns (ensure_columns t) = ensure_columns t := by
  rw [ensure_columns_eq (ensure_columns t)]
  have hnil : alterations.filter (fun c => decide (c ∉ (ensure_columns t).cols)) = [] := by
    apply List.filter_eq_nil_iff.mpr
    intro c hc
    simp [mem_ensure_columns t c hc]
  rw [hnil]
  simp

/-- Claim C5: opening the store against a pre-existing table from an older
schema adds exactly the later-added optional columns that are missing (NULL
default: rows are not rewritten), keeps the old columns in place as a
prefix (no drop, no rename), introduces no duplicate column, and a second
consecutive run is a no-op on the whole table. -/
theorem c5_init_db_additive_idempotent (t : Table) (h : t.cols.Nodup) :
    (init_db (some t)).rows = t.rows ∧
    (init_db (some t)).cols =
      t.cols ++ alterations.filter (fun c => decide (c ∉ t.cols)) ∧
    t.cols <+: (init_db (some t)).cols ∧
    (init_db (some t)).cols.Nodup ∧
    init_db (some (init_db (some t))) = init_db (some t) := by
  have he := ensure_columns_eq t
  refine ⟨?_, ?_, ?_, ?_, ?_⟩
  · show (ensure_columns t).rows = t.rows
    rw [he]
  · show (ensure_columns t).cols = _
    rw [he]
  · show t.cols <+: (ensure_columns t).cols
    rw [he]
    exact ⟨_, rfl⟩
  · show (ensure_columns t).cols.Nodup
    rw [he]
    rw [List.nodup_append]
    refine ⟨h, List.Nodup.filter _ (by decide), ?_⟩
    intro a ha hb
    have hmf := List.mem_filter.mp hb
    exact absurd ha (by simpa using hmf.2)
  · show ensure_columns (ensure_columns t) = ensure_columns t
    exact ensure_columns_idem t

/-- A pre-existing table from an older schema (the columns before the five
later additions), with one row. -/
def tW : Table :=
  { cols := ["id", "username", "password", "first_name", "last_name", "email"],
    rows := [[("id", "1"), ("username", "alice"), ("password", "h:x")]] }

/-- Claim C5 witness: the instantiated property at the concrete old table. -/
theorem c5_init_db_additive_idempotent_witness :
    (init_db (some tW)).rows = tW.rows ∧
    (init_db (some tW)).cols =
      tW.cols ++ alterations.filter (fun c => decide (c ∉ tW.cols)) ∧
    tW.cols <+: (init_db (some tW)).cols ∧
    (init_db (some tW)).cols.Nodup ∧
    init_db (some (init_db (some tW))) = init_db (some tW) :=
  c5_init_db_additive_idempotent tW (by decide)

/-! ### Claim C6: profile completion is a destructive full overwrite -/

/-- Claim C6: with no matching record the flow fails with the not-found
outcome and changes nothing; with a match, all seven profile fields of the
matching record are overwritten with the trimmed submitted values (absent
fields default to the empty string, clearing previously saved values), the
outcome carries the stored username, no row is added or removed, and every
other record is kept. -/
theorem c6_profile_full_overwrite (s : List User) (uname : String) (form : ProfileForm) :
    (load_user s uname = none → complete_profile s uname form = (.notFound, s)) ∧
    (∀ user, load_user s uname = some user →
      (complete_profile s uname form).1 = .saved user.username ∧
      ((complete_profile s uname form).2).length = s.length ∧
      (∃ w ∈ (complete_profile s uname form).2, w.username = user.username) ∧
      (∀ w ∈ (complete_profile s uname form).2, w.username = user.username →
        w.first_name = some (formGet form.first_name) ∧
        w.last_name = some (formGet form.last_name) ∧
        w.email = some (formGet form.email) ∧
        w.job_title = some (formGet form.job_title) ∧
        w.favorite_service = some (formGet form.favorite_service) ∧
        w.region = some (formGet form.region) ∧
        w.bio = some (formGet form.bio)) ∧
      (∀ v ∈ s, v.username ≠ user.username → v ∈ (complete_profile s uname form).2)) := by
  constructor
  · intro h
    simp [complete_profile, h]
  · intro user h
    have hmem : user ∈ s := List.mem_of_find?_eq_some h
    refine ⟨?_, ?_, ?_, ?_, ?_⟩
    · simp [complete_profile, h]
    · simp [complete_profile, h]
    · simp only [complete_profile, h]
      exact ⟨_, List.mem_map_of_mem _ hmem, by simp⟩
    · intro w hw hwu
      simp only [complete_profile, h] at hw
      rcases List.mem_map.mp hw with ⟨v, hv, rfl⟩
      by_cases hvu : v.username = user.username
      · simp [hvu]
      · rw [if_neg hvu] at hwu
        exact (hvu hwu).elim
    · intro v hv hvu
      simp only [complete_profile, h]
      exact List.mem_map.mpr ⟨v, hv, if_neg hvu⟩

/-- A stored user with previously saved profile values. -/
def anaUser : User :=
  { id := 1, username := "ana", password := "h:p",
    first_name := some "X", bio := some "hello" }

/-- The store holding only `anaUser`. -/
def storeAna : List User := [anaUser]

/-- The profile submission of the specification example: `first_name` set to
`Ana`, `bio` submitted blank, the other five fields absent. -/
def formAna : ProfileForm := { first_name := some "Ana", bio := some "" }

/-- Claim C6 witness: the specification example — previously saved
`{first_name: X, bio: hello}` overwritten with `{first_name: Ana, bio: }`
yields `{first_name: Ana, bio: }`, a full overwrite. -/
theorem c6_profile_full_overwrite_witness :
    (complete_profile storeAna "ana" formAna).1 = .saved "ana" ∧
    ∀ w ∈ (complete_profile storeAna "ana" formAna).2, w.username = "ana" →
      w.first_name = some "Ana" ∧ w.bio = some "" := by
  have h := (c6_profile_full_overwrite storeAna "ana" formAna).2 anaUser (by decide)
  refine ⟨h.1, fun w hw hwu => ?_⟩
  have r := h.2.2.2.1 w hw hwu
  exact ⟨r.1.trans (by decide), r.2.2.2.2.2.2.trans (by decide)⟩

/-! ### Claim C7: the file probe can raise on a present-but-unreadable file -/

/-- Claim C7 fails on the code: in the environment where `Limerick.txt`
exists but reading it fails (unreadable file or bytes that are not valid
UTF-8), `get_limerick_stats` raises to its caller instead of returning a
mapping with an advisory — `read_text` is outside any try/except. -/
theorem c7_limerick_read_failure_raises :
    get_limerick_stats .unreadable "/srv/Limerick.txt" = .error .readError := rfl

/-! ### Claim C8: metadata probe is fail-fast with one advisory -/

/-- Claim C8: if the fetch of field `k` fails while every earlier field
fetch succeeds, the probe returns exactly the trimmed values of the fields
before `k` plus the single advisory, and the request trace shows fields `0`
to `k` each attempted exactly once with a 200 ms timeout — nothing after
field `k` is attempted. -/
theorem c8_metadata_fail_fast (net : String → FetchOutcome) (bodies : Nat → String) (k : Nat)
    (hk : k < METADATA_FIELDS.length)
    (hfail : net (METADATA_FIELDS.getD k ("", "")).2 = .failure)
    (hbefore : ∀ i, i < k → net (METADATA_FIELDS.getD i ("", "")).2 = .success (bodies i)) :
    fetch_instance_metadata true net =
      ((List.range k).map (fun i => ((METADATA_FIELDS.getD i ("", "")).1, pyStrip (bodies i)))
         ++ [("error", METADATA_ADVISORY)],
       (List.range (k + 1)).map
         (fun i => { path := (METADATA_FIELDS.getD i ("", "")).2, timeout_ms := 200 })) := by
  have hk4 : k < 4 := by simpa [METADATA_FIELDS] using hk
  interval_cases k
  · have h0 : net "instance-id" = .failure := by simpa [METADATA_FIELDS] using hfail
    simp [fetch_instance_metadata, METADATA_FIELDS, List.foldl, metadataStep, h0, List.lookup,
          List.range_succ]
  · have h0 : net "instance-id" = .success (bodies 0) := by
      simpa [METADATA_FIELDS] using hbefore 0 (by omega)
    have h1 : net "instance-type" = .failure := by simpa [METADATA_FIELDS] using hfail
    simp [fetch_instance_metadata, METADATA_FIELDS, List.foldl, metadataStep, h0, h1, List.lookup,
          List.range_succ]
  · have h0 : net "instance-id" = .success (bodies 0) := by
      simpa [METADATA_FIELDS] using hbefore 0 (by omega)
    have h1 : net "instance-type" = .success (bodies 1) := by
      simpa [METADATA_FIELDS] using hbefore 1 (by omega)
    have h2 : net "placement/availability-zone" = .failure := by
      simpa [METADATA_FIELDS] using hfail
    simp [fetch_instance_metadata, METADATA_FIELDS, List.foldl, metadataStep, h0, h1, h2,
          List.lookup, List.range_succ]
  · have h0 : net "instance-id" = .success (bodies 0) := by
      simpa [METADATA_FIELDS] using hbefore 0 (by omega)
    have h1 : net "instance-type" = .success (bodies 1) := by
      simpa [METADATA_FIELDS] using hbefore 1 (by omega)
    have h2 : net "placement/availability-zone" = .success (bodies 2) := by
      simpa [METADATA_FIELDS] using hbefore 2 (by omega)
    have h3 : net "public-ipv4" = .failure := by simpa [METADATA_FIELDS] using hfail
    simp [fetch_instance_metadata, METADATA_FIELDS, List.foldl, metadataStep, h0, h1, h2, h3,
          List.lookup, List.range_succ]

/-- A network where only the first metadata path answers. -/
def netW : String → FetchOutcome :=
  fun p => if p == "instance-id" then .success " i-0abc " else .failure

/-- Bodies returned by `netW`, indexed by field position. -/
def bodiesW : Nat → String := fun _ => " i-0abc "

/-- Claim C8 witness: against `netW` the second fetch fails, so the result
keeps the first trimmed value plus the advisory and attempts exactly the
first two fields. -/
theorem c8_metadata_fail_fast_witness :
    fetch_instance_metadata true netW =
      ((List.range 1).map (fun i => ((METADATA_FIELDS.getD i ("", "")).1, pyStrip (bodiesW i)))
         ++ [("error", METADATA_ADVISORY)],
       (List.range 2).map
         (fun i => { path := (METADATA_FIELDS.getD i ("", "")).2, timeout_ms := 200 })) :=
  c8_metadata_fail_fast netW bodiesW 1 (by decide) (by decide)
    (fun i hi => by interval_cases i; decide)

end Nimbus
